import Mathlib

/-!
Verification development for the persistent-subprocess HTTP relay
(`server` source: `startMCPProcess`, `sendToMCP`, and the HTTP glue).

The relay keeps a child process alive, frames its stdout into
newline-delimited JSON lines, correlates responses with pending requests
by `id`, rejects pending requests on crash, and enforces a 30-second
per-request timeout.

We embed:
  * the Line Framer (stdout `data` handler, lines 40-47 of the source):
    `buffer += data; lines = buffer.split('\n'); buffer = lines.pop() || ''`,
    modelled on `List Char` via `List.splitOn '\n'`;
  * the Request Correlator / Subprocess Supervisor as a step function on
    an explicit `RelayState`, with events for `sendToMCP` calls, framed
    stdout lines, timer expirations, the `close` handler and the stderr
    readiness handler.  JavaScript promise settlement calls are recorded
    in an explicit log (a promise's effective outcome is the first
    `resolve`/`reject` invocation recorded for its token).
-/

namespace MCPRelay

/-! ## Line Framer (source lines 40-47) -/

/-- JS `buffer.split('\n')` on a string modelled as a list of chars. -/
def splitNL (l : List Char) : List (List Char) :=
  l.splitOn '\n'

/-- One stdout `data` event (source lines 42-47): append the chunk to the
buffer, split on `'\n'`, keep the last segment (`lines.pop() || ''`) as the
new buffer and emit the remaining segments as complete lines. -/
def processChunk (buf chunk : List Char) : List (List Char) × List Char :=
  let ls := splitNL (buf ++ chunk)
  (ls.dropLast, ls.getLastD [])

/-- Accumulate one chunk: extend the emitted-line log and update the
buffer. -/
def framerStep (acc : List (List Char) × List Char) (chunk : List Char) :
    List (List Char) × List Char :=
  let r := processChunk acc.2 chunk
  (acc.1 ++ r.1, r.2)

/-- Feed a sequence of chunks through the framer starting from an empty
buffer, collecting all emitted complete lines and the final buffer. -/
def runFramer (chunks : List (List Char)) : List (List Char) × List Char :=
  chunks.foldl framerStep ([], [])

/-- Re-terminate each emitted line with the line terminator and
concatenate. -/
def joinNL (ls : List (List Char)) : List Char :=
  (ls.map (fun l => l ++ ['\n'])).flatten

theorem splitNL_ne_nil (l : List Char) : splitNL l ≠ [] :=
  List.splitOnP_ne_nil _ l

theorem joinNL_dropLast_append_getLastD (ls : List (List Char)) (h : ls ≠ []) :
    joinNL ls.dropLast ++ ls.getLastD [] = ['\n'].intercalate ls := by
  induction ls with
  | nil => exact absurd rfl h
  | cons a t ih =>
    cases t with
    | nil => simp [joinNL, List.intercalate]
    | cons b t' =>
      have ht : b :: t' ≠ [] := by simp
      have hrec := ih ht
      simp only [List.dropLast_cons_of_ne_nil ht, List.getLastD_cons, joinNL,
        List.map_cons, List.flatten_cons] at *
      rw [List.append_assoc, hrec]
      simp [List.intercalate, List.intersperse]

/-- Splitting on `'\n'` and re-joining (terminated lines followed by the
residual buffer) recovers the input. -/
theorem splitNL_conservation (l : List Char) :
    joinNL ((splitNL l).dropLast) ++ (splitNL l).getLastD [] = l := by
  rw [joinNL_dropLast_append_getLastD _ (splitNL_ne_nil l)]
  exact List.intercalate_splitOn _ '\n'

/-- No segment produced by `List.splitOnP` contains an element satisfying
the predicate. -/
theorem splitOnP_no_sep {α : Type} (p : α → Bool) (xs : List α) :
    ∀ l ∈ xs.splitOnP p, ∀ a ∈ l, p a = false := by
  induction xs with
  | nil =>
    intro l hl a ha
    rw [List.splitOnP_nil] at hl
    simp at hl
    subst hl
    simp at ha
  | cons x xs ih =>
    intro l hl a ha
    rw [List.splitOnP_cons] at hl
    by_cases hx : p x
    · rw [if_pos hx] at hl
      rcases List.mem_cons.mp hl with h | h
      · subst h; simp at ha
      · exact ih l h a ha
    · rw [if_neg hx] at hl
      rcases hxs : xs.splitOnP p with _ | ⟨hd, tl⟩
      · exact absurd hxs (List.splitOnP_ne_nil p xs)
      · rw [hxs, List.modifyHead_cons] at hl
        rcases List.mem_cons.mp hl with h | h
        · subst h
          rcases List.mem_cons.mp ha with h | h
          · subst h; exact Bool.eq_false_iff.mpr hx
          · exact ih hd (hxs ▸ List.mem_cons_self hd tl) a h
        · exact ih l (hxs ▸ List.mem_cons_of_mem hd h) a ha

/-- No segment produced by `splitNL` contains a newline. -/
theorem splitNL_no_newline (l : List Char) :
    ∀ s ∈ splitNL l, '\n' ∉ s := by
  intro s hs hmem
  have := splitOnP_no_sep (· == '\n') l s hs '\n' hmem
  simp at this

/-! ## Correlator / Supervisor data model -/

/-- A JSON-RPC id as typed by `PendingRequest` in the source:
`id: string | number`.  JS strict equality `===` on such values is
structural equality and never identifies a number with a string. -/
inductive JsId where
  | num (n : Int)
  | str (s : String)
deriving DecidableEq, Repr

/-- One `PendingRequest` in `requestQueue`.  `tok` identifies the JS
promise whose `resolve`/`reject` closures the entry holds; distinct
`sendToMCP` calls create distinct promises, hence distinct tokens. -/
structure Entry where
  id : JsId
  tok : Nat
deriving DecidableEq, Repr

/-- A timer armed with `setTimeout`: the 30-second request timeout armed
in `sendToMCP` (closing over the request's promise token and id), or the
1-second restart timer armed in the `close` handler. -/
inductive Timer where
  | timeout (tok : Nat) (id : JsId) (delayMs : Nat)
  | restart (delayMs : Nat)
deriving DecidableEq, Repr

/-- The mutable module-level state of the relay: the `mcpProcess` handle
(modelled by whether one exists), `isReady`, `requestQueue`, plus the
currently armed timers. -/
structure RelayState where
  procExists : Bool
  isReady : Bool
  queue : List Entry
  timers : List Timer
deriving DecidableEq, Repr

/-- A settlement call on a pending promise (a JS promise's effective
outcome is the first such call recorded for its token; later calls are
absorbed). -/
inductive SettleKind where
  | resolved
  | rejected (msg : String)
deriving DecidableEq, Repr

/-- Result of `JSON.parse` on a complete line: `fail` when it throws,
`ok rid` when it yields a value whose `id` field is `rid` (`none` when the
field is absent, i.e. `undefined`). -/
inductive ParseResult where
  | fail
  | ok (rid : Option JsId)
deriving DecidableEq, Repr

/-- External events driving the relay: a `sendToMCP` call (with the
caller-chosen id, a fresh promise token, and whether `stdin.write` throws),
one complete framed stdout line together with its `JSON.parse` outcome, a
timer expiry, the child's `close` event, and a stderr chunk. -/
inductive Event where
  | submit (id : JsId) (tok : Nat) (writeErr : Option String)
  | line (raw : List Char) (parse : ParseResult)
  | fireTimer (t : Timer)
  | close (code : Option Int)
  | stderr (msg : List Char)
deriving DecidableEq, Repr

/-- `req.id === response.id` where `response.id` may be absent
(`undefined`): strict equality; `undefined` equals no string or number. -/
def idEq (eid : JsId) (rid : Option JsId) : Bool :=
  match rid with
  | none => false
  | some r => eid == r

/-- `requestQueue.findIndex(p)` followed by `splice(index, 1)`: the first
entry satisfying `p` and the queue with that entry removed (`none` when
`findIndex` yields `-1`). -/
def extractFirst (p : Entry → Bool) : List Entry → Option (Entry × List Entry)
  | [] => none
  | e :: rest =>
      if p e then some (e, rest)
      else
        match extractFirst p rest with
        | none => none
        | some (f, q') => some (f, e :: q')

/-- JS `String.prototype.trim` on the model's character lists. -/
def trimL (l : List Char) : List Char :=
  ((l.dropWhile Char.isWhitespace).reverse.dropWhile Char.isWhitespace).reverse

/-- First readiness marker checked by the stderr handler (source line 73). -/
def marker1 : List Char := "Server Running".data

/-- Second readiness marker checked by the stderr handler (source line 73). -/
def marker2 : List Char := "Connected".data

/-- The stderr readiness test (source lines 68-76): the trimmed chunk sets
`isReady` when it contains `'Server Running'` or `'Connected'`. -/
def readySignal (msg : List Char) : Bool :=
  decide (marker1 <:+: trimL msg) || decide (marker2 <:+: trimL msg)

/-- One event step of the relay, returning the new state and the promise
settlement calls the handler makes, in order. -/
def step (s : RelayState) (e : Event) : RelayState × List (Nat × SettleKind) :=
  match e with
  | .submit id tok writeErr =>
      -- sendToMCP, source lines 98-126
      if !s.procExists || !s.isReady then
        (s, [(tok, .rejected "MCP not ready")])
      else
        let q1 := s.queue ++ [⟨id, tok⟩]
        let timers1 := s.timers ++ [.timeout tok id 30000]
        match writeErr with
        | none => ({ s with queue := q1, timers := timers1 }, [])
        | some err =>
            -- catch: remove the first entry matching request.id, then reject
            let q2 := match extractFirst (fun r => r.id == id) q1 with
              | some (_, q') => q'
              | none => q1
            ({ s with queue := q2, timers := timers1 }, [(tok, .rejected err)])
  | .line raw parse =>
      -- one framed stdout line, source lines 49-65
      if trimL raw = [] then (s, [])
      else
        match parse with
        | .fail => (s, [])
        | .ok rid =>
            match extractFirst (fun r => idEq r.id rid) s.queue with
            | none => (s, [])
            | some (f, q') => ({ s with queue := q' }, [(f.tok, .resolved)])
  | .fireTimer t =>
      if t ∈ s.timers then
        let timers' := s.timers.erase t
        match t with
        | .timeout tok id _ =>
            -- source lines 118-124: remove the first entry matching the
            -- captured request.id, reject the captured promise
            match extractFirst (fun r => r.id == id) s.queue with
            | none => ({ s with timers := timers' }, [])
            | some (_, q') =>
                ({ s with queue := q', timers := timers' },
                 [(tok, .rejected "Request timeout")])
        | .restart _ =>
            -- setTimeout(startMCPProcess, 1000): spawn a fresh process
            ({ s with procExists := true, timers := timers' }, [])
      else (s, [])
  | .close _ =>
      -- source lines 78-90; the handler's effects ignore the exit code
      ({ s with isReady := false, queue := [],
                timers := s.timers ++ [.restart 1000] },
       s.queue.map (fun r => (r.tok, .rejected "MCP process died")))
  | .stderr msg =>
      if readySignal msg then ({ s with isReady := true }, [])
      else (s, [])

/-- Run a list of events, concatenating the settlement logs. -/
def runTrace (s : RelayState) (es : List Event) :
    RelayState × List (Nat × SettleKind) :=
  es.foldl (fun acc e =>
    let r := step acc.1 e
    (r.1, acc.2 ++ r.2)) (s, [])

/-- The settlement calls made on the promise with token `tok`, in order. -/
def settlesFor (tok : Nat) (log : List (Nat × SettleKind)) : List SettleKind :=
  (log.filter (fun p => p.1 == tok)).map Prod.snd

/-- State right after `startMCPProcess` spawns the child, before any
readiness marker: a process handle exists, `isReady` is false, the queue
and the timer set are empty. -/
def boot : RelayState := ⟨true, false, [], []⟩

/-- A ready relay with an empty queue, as reached from `boot` by a stderr
chunk containing a readiness marker. -/
def ready0 : RelayState := ⟨true, true, [], []⟩

theorem ready0_reachable :
    (runTrace boot [.stderr "Connected".data]).1 = ready0 := by decide

/-! ### Helper lemmas about `extractFirst` -/

theorem extractFirst_none {p : Entry → Bool} {q : List Entry}
    (h : ∀ e ∈ q, p e = false) : extractFirst p q = none := by
  induction q with
  | nil => rfl
  | cons e rest ih =>
    simp only [extractFirst, h e (List.mem_cons_self e rest)]
    rw [ih fun x hx => h x (List.mem_cons_of_mem e hx)]
    simp

theorem extractFirst_append_singleton {p : Entry → Bool} {q : List Entry}
    {en : Entry} (h : ∀ e ∈ q, p e = false) (hen : p en = true) :
    extractFirst p (q ++ [en]) = some (en, q) := by
  induction q with
  | nil => simp [extractFirst, hen]
  | cons e rest ih =>
    simp only [List.cons_append, extractFirst, h e (List.mem_cons_self e rest),
      List.append_eq]
    rw [ih fun x hx => h x (List.mem_cons_of_mem e hx)]
    simp

theorem getLastD_mem {α : Type} : ∀ (l : List α) (d : α), l ≠ [] → l.getLastD d ∈ l := by
  intro l
  induction l with
  | nil => intro d h; exact absurd rfl h
  | cons a t ih =>
    intro d h
    cases t with
    | nil => simp
    | cons b t' =>
      rw [List.getLastD_cons]
      exact List.mem_cons_of_mem a (ih a (by simp))

/-- Conservation of the fold, generalized over the starting accumulator. -/
theorem framer_fold_conservation (chunks : List (List Char)) :
    ∀ (acc : List (List Char)) (buf : List Char),
      joinNL (chunks.foldl framerStep (acc, buf)).1 ++
          (chunks.foldl framerStep (acc, buf)).2 =
        joinNL acc ++ (buf ++ chunks.flatten) := by
  induction chunks with
  | nil => intro acc buf; simp
  | cons c cs ih =>
    intro acc buf
    rw [List.foldl_cons]
    show joinNL (cs.foldl framerStep (framerStep (acc, buf) c)).1 ++ _ = _
    have hstep : framerStep (acc, buf) c =
        (acc ++ (splitNL (buf ++ c)).dropLast, (splitNL (buf ++ c)).getLastD []) := rfl
    rw [hstep, ih]
    have hjoin : joinNL (acc ++ (splitNL (buf ++ c)).dropLast) =
        joinNL acc ++ joinNL ((splitNL (buf ++ c)).dropLast) := by
      simp [joinNL]
    rw [hjoin, List.flatten_cons, List.append_assoc]
    congr 1
    rw [← List.append_assoc, splitNL_conservation (buf ++ c), List.append_assoc]

/-! ## C4 / C10 — Line Framer claims -/

/-- C4: on each chunk the framer appends the chunk to the buffer, splits on
the line terminator, emits every segment except the last (each emitted line
is newline-free and re-terminating them recovers the input), and keeps the
last (possibly empty) segment as the new buffer; a single JSON line split
across two chunks is emitted as exactly one complete line equal to the full
concatenation. -/
theorem framer_chunk_correct :
    (∀ buf chunk : List Char,
        joinNL (processChunk buf chunk).1 ++ (processChunk buf chunk).2 = buf ++ chunk
        ∧ (∀ l ∈ (processChunk buf chunk).1, '\n' ∉ l)
        ∧ '\n' ∉ (processChunk buf chunk).2
        ∧ (processChunk buf chunk).1 = (splitNL (buf ++ chunk)).dropLast
        ∧ (processChunk buf chunk).2 = (splitNL (buf ++ chunk)).getLastD [])
    ∧ processChunk [] "\x7b\"id\":1,\"result\"".data = ([], "\x7b\"id\":1,\"result\"".data)
    ∧ processChunk "\x7b\"id\":1,\"result\"".data ":\"ok\"\x7d\n".data =
        (["\x7b\"id\":1,\"result\":\"ok\"\x7d".data], []) := by
  refine ⟨fun buf chunk => ⟨splitNL_conservation (buf ++ chunk), ?_, ?_, rfl, rfl⟩,
    by decide, by decide⟩
  · intro l hl
    exact splitNL_no_newline (buf ++ chunk) l (List.dropLast_subset _ hl)
  · exact splitNL_no_newline (buf ++ chunk) _
      (getLastD_mem _ [] (splitNL_ne_nil (buf ++ chunk)))

theorem framer_chunk_correct_witness :
    ("ab".data ∈ (processChunk [] "ab\ncd".data).1) ∧ '\n' ∉ "ab".data :=
  ⟨by decide, (framer_chunk_correct.1 [] "ab\ncd".data).2.1 "ab".data (by decide)⟩

/-- C10: framer conservation — concatenating every emitted complete line
followed by one line terminator, in emission order, then appending the
residual buffer, yields exactly the concatenation of all chunks fed from an
empty buffer. -/
theorem framer_no_loss (chunks : List (List Char)) :
    joinNL (runFramer chunks).1 ++ (runFramer chunks).2 = chunks.flatten := by
  have h := framer_fold_conservation chunks [] []
  simpa [runFramer, joinNL] using h

/-! ## C3 — submit while not ready -/

/-- C3: a `sendToMCP` call made while the relay is not ready rejects
immediately with the `'MCP not ready'` error and leaves the entire state —
in particular the request queue — exactly unchanged. -/
theorem submit_not_ready_rejects (s : RelayState) (id : JsId) (tok : Nat)
    (w : Option String) (h : s.isReady = false) :
    step s (.submit id tok w) = (s, [(tok, SettleKind.rejected "MCP not ready")]) := by
  simp [step, h]

theorem submit_not_ready_rejects_witness :
    boot.isReady = false ∧
      step boot (.submit (.num 7) 0 none) =
        (boot, [(0, SettleKind.rejected "MCP not ready")]) :=
  ⟨rfl, submit_not_ready_rejects boot (.num 7) 0 none rfl⟩

/-! ## C2 — close handler -/

/-- C2: whenever the child's `close` event fires — whatever the exit code —
readiness is cleared, every pending request is rejected with the
`'MCP process died'` error, the queue is emptied, and exactly one restart
timer with a 1000 ms delay is scheduled; with three requests pending all
three are rejected and the queue size becomes 0. -/
theorem close_rejects_all_and_schedules_restart :
    (∀ (s : RelayState) (c : Option Int),
        (step s (.close c)).1.isReady = false
        ∧ (step s (.close c)).1.queue = []
        ∧ (step s (.close c)).1.timers = s.timers ++ [Timer.restart 1000]
        ∧ (step s (.close c)).2 =
            s.queue.map (fun r => (r.tok, SettleKind.rejected "MCP process died")))
    ∧ (∀ (s : RelayState) (c₁ c₂ : Option Int),
        step s (.close c₁) = step s (.close c₂))
    ∧ (let s3 : RelayState :=
        ⟨true, true, [⟨.num 1, 10⟩, ⟨.str "b", 11⟩, ⟨.num 3, 12⟩], []⟩
       (step s3 (.close (some 1))).2 =
           [(10, SettleKind.rejected "MCP process died"),
            (11, SettleKind.rejected "MCP process died"),
            (12, SettleKind.rejected "MCP process died")]
       ∧ (step s3 (.close (some 1))).1.queue.length = 0
       ∧ (step s3 (.close (some 1))).1.timers = [Timer.restart 1000]
       ∧ (step s3 (.close (some 0))).2 = (step s3 (.close (some 1))).2) := by
  exact ⟨fun s c => ⟨rfl, rfl, rfl, rfl⟩, fun s c₁ c₂ => rfl, by decide⟩

/-! ## C5 — strict id matching -/

/-- C5: response-to-request matching is strict equality including type: a
numeric id never matches a string id; two concurrently pending requests
with ids `1` (number) and `"1"` (string) resolve independently, in either
arrival order, and resolving one leaves the other's entry in the queue. -/
theorem id_match_type_strict :
    (∀ (e : Entry) (rid : JsId), idEq e.id (some rid) = true ↔ e.id = rid)
    ∧ (∀ (n : Int) (s : String), idEq (JsId.num n) (some (JsId.str s)) = false)
    ∧ (∀ (n : Int) (s : String), idEq (JsId.str s) (some (JsId.num n)) = false)
    ∧ (∀ (e : Entry), idEq e.id none = false)
    ∧ (let q : List Entry := [⟨JsId.num 1, 0⟩, ⟨JsId.str "1", 1⟩]
       let s : RelayState := ⟨true, true, q, []⟩
       step s (.line "\x7b\"id\":1\x7d".data (.ok (some (.num 1)))) =
         (⟨true, true, [⟨JsId.str "1", 1⟩], []⟩, [(0, SettleKind.resolved)])
       ∧ step s (.line "\x7b\"id\":\"1\"\x7d".data (.ok (some (.str "1")))) =
         (⟨true, true, [⟨JsId.num 1, 0⟩], []⟩, [(1, SettleKind.resolved)])
       ∧ step (⟨true, true, [⟨JsId.str "1", 1⟩], []⟩ : RelayState)
           (.line "\x7b\"id\":\"1\"\x7d".data (.ok (some (.str "1")))) =
         (⟨true, true, [], []⟩, [(1, SettleKind.resolved)])
       ∧ step (⟨true, true, [⟨JsId.num 1, 0⟩], []⟩ : RelayState)
           (.line "\x7b\"id\":1\x7d".data (.ok (some (.num 1)))) =
         (⟨true, true, [], []⟩, [(0, SettleKind.resolved)])) := by
  refine ⟨?_, ?_, ?_, fun e => rfl, by decide⟩
  · intro e rid
    simp [idEq]
  · intro n s
    simp [idEq]
  · intro n s
    simp [idEq]

theorem id_match_type_strict_witness :
    idEq (JsId.num 1) (some (JsId.str "1")) = false
    ∧ idEq (JsId.str "1") (some (JsId.num 1)) = false :=
  ⟨id_match_type_strict.2.1 1 "1", id_match_type_strict.2.2.1 1 "1"⟩

/-! ## C9 — irrelevant lines leave the queue untouched -/

/-- C9: a complete line that is whitespace-only, fails to parse, or parses
to an id matching no pending entry leaves the state — queue included —
exactly unchanged and settles no promise. -/
theorem irrelevant_line_frame (s : RelayState) (raw : List Char)
    (parse : ParseResult)
    (h : trimL raw = [] ∨ parse = ParseResult.fail ∨
         ∀ rid, parse = ParseResult.ok rid → ∀ e ∈ s.queue, idEq e.id rid = false) :
    step s (.line raw parse) = (s, []) := by
  by_cases ht : trimL raw = []
  · simp [step, ht]
  · rcases h with h | h | h
    · exact absurd h ht
    · subst h
      simp [step, ht]
    · cases parse with
      | fail => simp [step, ht]
      | ok rid => simp [step, ht, extractFirst_none (h rid rfl)]

theorem irrelevant_line_frame_witness :
    (let s : RelayState := ⟨true, true, [⟨JsId.num 2, 5⟩], []⟩
     step s (.line "   ".data ParseResult.fail) = (s, [])
     ∧ step s (.line "log line".data ParseResult.fail) = (s, [])
     ∧ step s (.line "\x7b\"id\":9\x7d".data (ParseResult.ok (some (JsId.num 9)))) =
         (s, [])) :=
  ⟨irrelevant_line_frame _ _ _ (Or.inl (by decide)),
   irrelevant_line_frame _ _ _ (Or.inr (Or.inl rfl)),
   irrelevant_line_frame _ _ _
     (Or.inr (Or.inr (fun rid hr => by cases hr; decide)))⟩

/-! ## C6 / C7 — timeout and write-failure eviction -/

theorem timeout_eviction_ext (s : RelayState) (id : JsId) (tok : Nat)
    (hu : ∀ e ∈ s.queue, e.id ≠ id) :
    extractFirst (fun r => r.id == id) (s.queue ++ [⟨id, tok⟩]) =
      some (⟨id, tok⟩, s.queue) := by
  refine extractFirst_append_singleton ?_ (by simp)
  intro e he
  exact beq_eq_false_iff_ne.mpr (hu e he)

/-- C6: a `sendToMCP` call made while ready (with an id not already
pending) arms a 30000 ms timeout; when that timeout fires before any
matching response, the pending entry is removed, the request is rejected
with `'Request timeout'` — whose message contains `"timeout"` — and the
queue returns exactly to its pre-submission value. -/
theorem timeout_fires_evicts_and_rejects (s : RelayState) (id : JsId) (tok : Nat)
    (hp : s.procExists = true) (hr : s.isReady = true)
    (hu : ∀ e ∈ s.queue, e.id ≠ id) :
    (step s (.submit id tok none)).1.queue = s.queue ++ [⟨id, tok⟩]
    ∧ (step s (.submit id tok none)).2 = []
    ∧ Timer.timeout tok id 30000 ∈ (step s (.submit id tok none)).1.timers
    ∧ (step (step s (.submit id tok none)).1
         (.fireTimer (.timeout tok id 30000))).1.queue = s.queue
    ∧ (step (step s (.submit id tok none)).1
         (.fireTimer (.timeout tok id 30000))).2 =
        [(tok, SettleKind.rejected "Request timeout")]
    ∧ "timeout".data <:+: "Request timeout".data := by
  have h1 : step s (.submit id tok none) =
      ({ s with queue := s.queue ++ [⟨id, tok⟩],
                timers := s.timers ++ [.timeout tok id 30000] }, []) := by
    simp [step, hp, hr]
  refine ⟨by rw [h1], by rw [h1], by rw [h1]; simp, ?_, ?_, by decide⟩
  · rw [h1]
    simp [step, timeout_eviction_ext s id tok hu]
  · rw [h1]
    simp [step, timeout_eviction_ext s id tok hu]

theorem timeout_fires_evicts_and_rejects_witness :
    (step ready0 (.submit (.str "a") 0 none)).1.queue =
        ready0.queue ++ [⟨.str "a", 0⟩]
    ∧ (step ready0 (.submit (.str "a") 0 none)).2 = []
    ∧ Timer.timeout 0 (.str "a") 30000 ∈
        (step ready0 (.submit (.str "a") 0 none)).1.timers
    ∧ (step (step ready0 (.submit (.str "a") 0 none)).1
         (.fireTimer (.timeout 0 (.str "a") 30000))).1.queue = ready0.queue
    ∧ (step (step ready0 (.submit (.str "a") 0 none)).1
         (.fireTimer (.timeout 0 (.str "a") 30000))).2 =
        [(0, SettleKind.rejected "Request timeout")]
    ∧ "timeout".data <:+: "Request timeout".data :=
  timeout_fires_evicts_and_rejects ready0 (.str "a") 0 rfl rfl (by decide)

/-- C7: when `stdin.write` throws during a `sendToMCP` call (while ready,
id not already pending), the just-registered entry is removed at once and
the request is rejected with that write error; the still-armed timeout
later finds nothing to evict, so the entry is not left to time out. -/
theorem write_failure_evicts_immediately (s : RelayState) (id : JsId) (tok : Nat)
    (err : String)
    (hp : s.procExists = true) (hr : s.isReady = true)
    (hu : ∀ e ∈ s.queue, e.id ≠ id) :
    (step s (.submit id tok (some err))).1.queue = s.queue
    ∧ (step s (.submit id tok (some err))).2 = [(tok, SettleKind.rejected err)]
    ∧ Timer.timeout tok id 30000 ∈ (step s (.submit id tok (some err))).1.timers
    ∧ (step (step s (.submit id tok (some err))).1
         (.fireTimer (.timeout tok id 30000))).1.queue = s.queue
    ∧ (step (step s (.submit id tok (some err))).1
         (.fireTimer (.timeout tok id 30000))).2 = [] := by
  have h1 : step s (.submit id tok (some err)) =
      ({ s with queue := s.queue,
                timers := s.timers ++ [.timeout tok id 30000] },
       [(tok, SettleKind.rejected err)]) := by
    simp [step, hp, hr, timeout_eviction_ext s id tok hu]
  have hnone : extractFirst (fun r => r.id == id) s.queue = none := by
    refine extractFirst_none ?_
    intro e he
    exact beq_eq_false_iff_ne.mpr (hu e he)
  refine ⟨by rw [h1], by rw [h1], by rw [h1]; simp, ?_, ?_⟩
  · rw [h1]
    simp [step, hnone]
  · rw [h1]
    simp [step, hnone]

theorem write_failure_evicts_immediately_witness :
    (step ready0 (.submit (.num 4) 2 (some "write EPIPE"))).1.queue = ready0.queue
    ∧ (step ready0 (.submit (.num 4) 2 (some "write EPIPE"))).2 =
        [(2, SettleKind.rejected "write EPIPE")]
    ∧ Timer.timeout 2 (.num 4) 30000 ∈
        (step ready0 (.submit (.num 4) 2 (some "write EPIPE"))).1.timers
    ∧ (step (step ready0 (.submit (.num 4) 2 (some "write EPIPE"))).1
         (.fireTimer (.timeout 2 (.num 4) 30000))).1.queue = ready0.queue
    ∧ (step (step ready0 (.submit (.num 4) 2 (some "write EPIPE"))).1
         (.fireTimer (.timeout 2 (.num 4) 30000))).2 = [] :=
  write_failure_evicts_immediately ready0 (.num 4) 2 "write EPIPE" rfl rfl (by decide)

/-! ## C1 — exactly-once settlement fails: stale timers are never cancelled

`sendToMCP` never cancels a request's 30-second timer when the request is
resolved (there is no `clearTimeout` in the source, although resolution is
supposed to retire the pending entry for good).  A timer left over from an
already-resolved request evicts a later pending request that reuses the
same id — removing its entry while rejecting the old, already-settled
promise — so for the later request neither continuation ever fires. -/

/-- Trace: request token 0 (id 1) is submitted and resolved; request token
1 reuses id 1 while nothing is pending; then both armed timers fire. -/
def staleTimerTrace : List Event :=
  [.submit (.num 1) 0 none,
   .line "\x7b\"id\":1\x7d".data (.ok (some (.num 1))),
   .submit (.num 1) 1 none,
   .fireTimer (.timeout 0 (.num 1) 30000),
   .fireTimer (.timeout 1 (.num 1) 30000)]

/-- C1 fails on the code: request token 1 is submitted while the relay is
ready and its id is unique among currently pending requests, yet after the
whole trace runs (queue empty, no timers left) not a single settlement
call was ever made for it — neither continuation fires.  Token 0 moreover
receives a resolve followed by a late reject call. -/
theorem stale_timer_starves_request :
    ((runTrace ready0 (staleTimerTrace.take 2)).1.isReady = true
      ∧ (runTrace ready0 (staleTimerTrace.take 2)).1.procExists = true
      ∧ ∀ e ∈ (runTrace ready0 (staleTimerTrace.take 2)).1.queue, e.id ≠ JsId.num 1)
    ∧ settlesFor 1 (runTrace ready0 staleTimerTrace).2 = []
    ∧ (runTrace ready0 staleTimerTrace).1.queue = []
    ∧ (runTrace ready0 staleTimerTrace).1.timers = []
    ∧ settlesFor 0 (runTrace ready0 staleTimerTrace).2 =
        [SettleKind.resolved, SettleKind.rejected "Request timeout"] := by
  decide

theorem stale_timer_starves_request_witness :
    settlesFor 1 (runTrace ready0 staleTimerTrace).2 = [] :=
  stale_timer_starves_request.2.1

/-! ## C8 — readiness markers -/

theorem trimL_isInfix_self (l : List Char) : trimL l <:+: l := by
  have hM : l.dropWhile Char.isWhitespace <:+ l := List.dropWhile_suffix _
  have hX : (l.dropWhile Char.isWhitespace).reverse.dropWhile Char.isWhitespace <:+
      (l.dropWhile Char.isWhitespace).reverse := List.dropWhile_suffix _
  have hP : trimL l <+: l.dropWhile Char.isWhitespace := by
    rw [← List.reverse_suffix]
    simpa [trimL] using hX
  obtain ⟨u, hu⟩ := hP
  obtain ⟨v, hv⟩ := hM
  exact ⟨v, u, by rw [List.append_assoc, hu, hv]⟩

/-- C8 as stated is false: there is no single marker substring whose
presence in a diagnostic chunk is equivalent to the readiness test — the
handler fires on two incomparable markers, `'Server Running'` and
`'Connected'`, and no one substring covers exactly both. -/
theorem no_single_readiness_marker :
    ¬ ∃ m : List Char, ∀ msg : List Char,
        readySignal msg = true ↔ m <:+: msg := by
  rintro ⟨m, hm⟩
  have h1 : m <:+: "Server Running".data := (hm _).mp (by decide)
  have h2 : m <:+: "Connected".data := (hm _).mp (by decide)
  have hmem : m ∈ ("Connected".data.tails.map List.inits).flatten := by
    obtain ⟨t, hpre, hsuf⟩ := List.infix_iff_prefix_suffix.mp h2
    exact List.mem_flatten.mpr
      ⟨t.inits, List.mem_map.mpr ⟨t, (List.mem_tails t _).mpr hsuf, rfl⟩,
       (List.mem_inits m t).mpr hpre⟩
  have henum : ∀ l ∈ ("Connected".data.tails.map List.inits).flatten,
      l <:+: "Server Running".data →
        l = [] ∨ l = ['e'] ∨ l = ['n'] ∨ l = ['n', 'n'] := by decide
  rcases henum m hmem h1 with h | h | h | h
  · subst h
    exact absurd ((hm "x".data).mpr (by decide)) (by decide)
  · subst h
    exact absurd ((hm "e".data).mpr (by decide)) (by decide)
  · subst h
    exact absurd ((hm "n".data).mpr (by decide)) (by decide)
  · subst h
    exact absurd ((hm "nn".data).mpr (by decide)) (by decide)

/-- C8 amended: readiness is declared exactly upon a stderr chunk whose
trimmed text contains at least one of the two designated markers
`'Server Running'` and `'Connected'`; a chunk containing neither marker
never sets readiness and no stderr chunk ever touches the queue or
settles a promise. -/
theorem ready_two_marker_contract (s : RelayState) (msg : List Char) :
    (step s (.stderr msg)).2 = []
    ∧ (step s (.stderr msg)).1.queue = s.queue
    ∧ (readySignal msg = true → marker1 <:+: msg ∨ marker2 <:+: msg)
    ∧ (marker1 <:+: trimL msg ∨ marker2 <:+: trimL msg →
        (step s (.stderr msg)).1.isReady = true)
    ∧ (readySignal msg = false → step s (.stderr msg) = (s, [])) := by
  refine ⟨?_, ?_, ?_, ?_, ?_⟩
  · by_cases hrs : readySignal msg = true <;> simp [step, hrs]
  · by_cases hrs : readySignal msg = true <;> simp [step, hrs]
  · intro h
    have h' : marker1 <:+: trimL msg ∨ marker2 <:+: trimL msg := by
      simpa [readySignal] using h
    rcases h' with h' | h'
    · exact Or.inl (List.IsInfix.trans h' (trimL_isInfix_self msg))
    · exact Or.inr (List.IsInfix.trans h' (trimL_isInfix_self msg))
  · intro h
    have hrs : readySignal msg = true := by
      rcases h with h | h <;> simp [readySignal, h]
    simp [step, hrs]
  · intro h
    simp [step, h]

theorem ready_two_marker_contract_witness :
    (MCPRelay.marker2 <:+: trimL "SSE Connected".data
      ∧ (step boot (.stderr "SSE Connected".data)).1.isReady = true)
    ∧ (readySignal "listening on 3001".data = false
      ∧ step boot (.stderr "listening on 3001".data) = (boot, [])) :=
  ⟨⟨by decide,
    (ready_two_marker_contract boot "SSE Connected".data).2.2.2.1
      (Or.inr (by decide))⟩,
   ⟨by decide,
    (ready_two_marker_contract boot "listening on 3001".data).2.2.2.2
      (by decide)⟩⟩

end MCPRelay
